import Mathlib

/-!
Shallow embedding of `src/static/script.js` (Voice Interaction Controller).

The script is single-threaded and event-driven.  Each JS function or event
handler is embedded as a Lean function from an explicit page state `St` to a
new state together with the list of externally observable effects it emits
(HTTP requests, speech-synthesis commands, alerts, navigation, console
output).  Fallible handlers additionally return an `Option String` holding
the exception that escapes to the event loop, if any; mutations performed
before a throw persist in the returned state, as they do in JS.

DOM elements are modelled as `Option String` (absent element vs. its
current value or label); `document.getElementById` returning `null` is the
`none` case.  JS string falsiness (`!text`) is the empty string; an
`undefined`/`null` argument is modelled as `none`.
-/

/-- Whether the browser exposes the speech-recognition constructors
(`'webkitSpeechRecognition' in window`, `'SpeechRecognition' in window`). -/
structure Env where
  webkitSpeechRecognition : Bool
  speechRecognition : Bool
deriving DecidableEq, Repr

/-- A recognizer instance as configured by `startRecognition`
(lines 21-24 of script.js). -/
structure Session where
  id : Nat
  lang : String
  interimResults : Bool
  maxAlternatives : Nat
deriving DecidableEq, Repr

/-- The DOM surface the script touches: `micBtn`, `userText`, `botText`,
`emailField` carry their label/value when present; the remaining buttons
only matter for wiring, so only their presence is recorded. -/
structure Dom where
  micBtn : Option String
  userText : Option String
  botText : Option String
  emailField : Option String
  stopBtn : Bool
  resetBtn : Bool
  logoutBtn : Bool
deriving DecidableEq, Repr

/-- Page state: the two module-level variables `recognition` and
`listening`, the DOM, the speech-synthesis queue (utterance text and rate),
a counter of recognizer objects constructed so far, and the value assigned
to `window.location.href`, if any. -/
structure St where
  recognition : Option Session
  listening : Bool
  dom : Dom
  synthQueue : List (String × Nat)
  sessionsCreated : Nat
  location : Option String
deriving DecidableEq, Repr

/-- Externally observable effects emitted by the script. -/
inductive Effect where
  | postAsk (message : String) (email : String)
  | postReset
  | getLogout
  | navigate (url : String)
  | alert (msg : String)
  | synthCancel
  | synthSpeak (text : String) (rate : Nat)
  | recStart
  | recStop
  | consoleWarn
  | consoleError
deriving DecidableEq, Repr

/-- Outcome of an awaited `fetch`: it resolves (with some HTTP status,
possibly an error status), or the promise rejects (network failure). -/
inductive FetchOutcome where
  | resolves (status : Nat)
  | rejects
deriving DecidableEq, Repr

/-- Idle mic-button label (script.js lines 53, 59, 74). -/
def idleLabel : String := "Start Listening 🎤"

/-- In-progress mic-button label (script.js line 29). -/
def listeningLabel : String := "Listening... 🎧"

/-- Alert text for the unsupported-environment condition (line 17). -/
def unsupportedMsg : String :=
  "Speech recognition not supported in this browser. Use Chrome (desktop or mobile)."

/-- Fallback bot reply used when `out.reply` is falsy (line 44). -/
def fallbackReply : String :=
  "I didn\x27t catch that. Try asking about leave balance, booking meeting rooms, or \x27show policies\x27."

/-- Initial page state: both module variables at their declared values
(`recognition = null`, `listening = false`), empty speech queue, no
recognizer constructed, no navigation performed. -/
def St.init (d : Dom) : St :=
  { recognition := none
    listening := false
    dom := d
    synthQueue := []
    sessionsCreated := 0
    location := none }

/-- `speak(text)` (lines 6-12): if `text` is falsy do nothing; otherwise
cancel current synthesis output and enqueue one utterance at rate 1. -/
def speak (text : Option String) (s : St) : St × List Effect :=
  match text with
  | none => (s, [])
  | some t =>
    if t = "" then (s, [])
    else ({ s with synthQueue := [(t, 1)] },
          [Effect.synthCancel, Effect.synthSpeak t 1])

/-- `startRecognition()` (lines 14-63): no-op while listening; alert and
abort when neither recognition capability exists; otherwise construct and
configure a new recognizer, install it in the module variable, and start
it.  The lifecycle handlers it installs are modelled below as `onstart`,
`onresult`, `onerror`, `onend`. -/
def startRecognition (env : Env) (s : St) : St × List Effect :=
  if s.listening then (s, [])
  else if !env.webkitSpeechRecognition && !env.speechRecognition then
    (s, [Effect.alert unsupportedMsg])
  else
    let sess : Session :=
      { id := s.sessionsCreated
        lang := "en-US"
        interimResults := false
        maxAlternatives := 1 }
    ({ s with recognition := some sess, sessionsCreated := s.sessionsCreated + 1 },
     [Effect.recStart])

/-- `recognition.onstart` (lines 26-30): set `listening`, update the mic
label when the button exists. -/
def onstart (s : St) : St × List Effect :=
  let s1 := { s with listening := true }
  ({ s1 with dom := { s1.dom with micBtn := s1.dom.micBtn.map (fun _ => listeningLabel) } },
   [])

/-- The email computation of line 37: the trimmed value of the email field
when that element exists, the empty string otherwise. -/
def emailValue (d : Dom) : String :=
  match d.emailField with
  | some v => v.trim
  | none => ""

/-- The reply selection `out.reply || fallback` (line 44): the fallback is
substituted whenever the `reply` field is absent or falsy (empty). -/
def replyOf (replyField : Option String) : String :=
  match replyField with
  | some r => if r = "" then fallbackReply else r
  | none => fallbackReply

/-- `recognition.onresult` (lines 32-47).  `transcript` is
`event.results[0][0].transcript`; `resp` is the awaited `/ask` exchange:
`Except.error` when the fetch or JSON parse rejects, `Except.ok r` when it
yields a body whose `reply` field is `r` (absent = `none`).

Line 34 writes `document.getElementById("userText").value` with no null
check, so an absent `userText` element throws before anything else
happens; likewise line 45 for `botText` after the exchange.  The third
component is the exception escaping the handler, if any. -/
def onresult (transcript : String) (resp : Except String (Option String))
    (s : St) : St × List Effect × Option String :=
  match s.dom.userText with
  | none => (s, [], some "TypeError: cannot set value of null")
  | some _ =>
    let s1 := { s with dom := { s.dom with userText := some transcript } }
    let email : String := emailValue s1.dom
    let effPost : List Effect := [Effect.postAsk transcript email]
    match resp with
    | Except.error e => (s1, effPost, some e)
    | Except.ok replyField =>
      let reply := replyOf replyField
      match s1.dom.botText with
      | none => (s1, effPost, some "TypeError: cannot set value of null")
      | some _ =>
        let s2 := { s1 with dom := { s1.dom with botText := some reply } }
        let (s3, eff2) := speak (some reply) s2
        (s3, effPost ++ eff2, none)

/-- `recognition.onerror` (lines 49-54): log, clear `listening`, restore
the idle label when the button exists. -/
def onerror (s : St) : St × List Effect :=
  let s1 := { s with listening := false }
  ({ s1 with dom := { s1.dom with micBtn := s1.dom.micBtn.map (fun _ => idleLabel) } },
   [Effect.consoleError])

/-- `recognition.onend` (lines 56-60): clear `listening`, restore the idle
label when the button exists. -/
def onend (s : St) : St × List Effect :=
  let s1 := { s with listening := false }
  ({ s1 with dom := { s1.dom with micBtn := s1.dom.micBtn.map (fun _ => idleLabel) } },
   [])

/-- `stopAll()` (lines 66-75): if a session exists, request it to stop
inside try/catch (`stopFails` says whether that request throws; the catch
logs a warning) and release it; then cancel synthesis, clear `listening`,
and restore the idle label when the button exists. -/
def stopAll (stopFails : Bool) (s : St) : St × List Effect :=
  let (s1, eff1) :=
    match s.recognition with
    | some _ =>
      ({ s with recognition := none },
       if stopFails then [Effect.consoleWarn] else [Effect.recStop])
    | none => (s, ([] : List Effect))
  let s2 := { s1 with synthQueue := [], listening := false }
  ({ s2 with dom := { s2.dom with micBtn := s2.dom.micBtn.map (fun _ => idleLabel) } },
   eff1 ++ [Effect.synthCancel])

/-- `resetUI()` (lines 78-85): `stopAll()`, then clear each text field
that exists, then `POST /reset`. -/
def resetUI (stopFails : Bool) (s : St) : St × List Effect :=
  let (s1, eff1) := stopAll stopFails s
  let s2 := { s1 with dom := { s1.dom with userText := s1.dom.userText.map (fun _ => "") } }
  let s3 := { s2 with dom := { s2.dom with botText := s2.dom.botText.map (fun _ => "") } }
  (s3, eff1 ++ [Effect.postReset])

/-- `logout()` (lines 88-91): `await fetch("/logout")`, then assign
`window.location.href = "/login"`.  When the fetch rejects, the `await`
throws and the assignment on line 90 never executes; the exception escapes
as an unhandled rejection (third component). -/
def logout (o : FetchOutcome) (s : St) : St × List Effect × Option String :=
  match o with
  | FetchOutcome.resolves _ =>
    ({ s with location := some "/login" },
     [Effect.getLogout, Effect.navigate "/login"], none)
  | FetchOutcome.rejects =>
    (s, [Effect.getLogout], some "TypeError: Failed to fetch")

/-- Which click handlers the `DOMContentLoaded` listener attached. -/
structure Wiring where
  micWired : Bool
  stopWired : Bool
  resetWired : Bool
  logoutWired : Bool
deriving DecidableEq, Repr

/-- The `DOMContentLoaded` handler (lines 94-106): attach each click
handler only when its button exists; an absent button is skipped. -/
def onDOMContentLoaded (d : Dom) : Wiring :=
  { micWired := d.micBtn.isSome
    stopWired := d.stopBtn
    resetWired := d.resetBtn
    logoutWired := d.logoutBtn }

/-- States reachable from page load in a fixed environment: closed under
every operation the page can perform.  The recognition lifecycle handlers
can only fire once a recognizer object has been constructed
(`0 < sessionsCreated`), since the handlers are installed on that object. -/
inductive Reachable (env : Env) : St → Prop where
  | init (d : Dom) : Reachable env (St.init d)
  | step_startRecognition {s : St} :
      Reachable env s → Reachable env (startRecognition env s).1
  | step_stopAll {s : St} (f : Bool) :
      Reachable env s → Reachable env (stopAll f s).1
  | step_resetUI {s : St} (f : Bool) :
      Reachable env s → Reachable env (resetUI f s).1
  | step_speak {s : St} (t : Option String) :
      Reachable env s → Reachable env (speak t s).1
  | step_logout {s : St} (o : FetchOutcome) :
      Reachable env s → Reachable env (logout o s).1
  | step_onstart {s : St} :
      Reachable env s → 0 < s.sessionsCreated → Reachable env (onstart s).1
  | step_onresult {s : St} (t : String) (r : Except String (Option String)) :
      Reachable env s → 0 < s.sessionsCreated → Reachable env (onresult t r s).1
  | step_onerror {s : St} :
      Reachable env s → 0 < s.sessionsCreated → Reachable env (onerror s).1
  | step_onend {s : St} :
      Reachable env s → 0 < s.sessionsCreated → Reachable env (onend s).1

/-- The environment with neither recognition capability. -/
def envUnsupported : Env :=
  { webkitSpeechRecognition := false, speechRecognition := false }

/-- The environment with both recognition capabilities. -/
def envFull : Env :=
  { webkitSpeechRecognition := true, speechRecognition := true }

/-- A page on which every element the script touches is present. -/
def domFull : Dom :=
  { micBtn := some idleLabel
    userText := some ""
    botText := some ""
    emailField := none
    stopBtn := true
    resetBtn := true
    logoutBtn := true }

/-- A page missing the `userText` element. -/
def domNoUserText : Dom :=
  { domFull with userText := none }

/-- A state in which a recognition session is already active. -/
def stListening : St :=
  { St.init domFull with listening := true }

/- Helper lemmas (closed forms of the compound operations). -/

theorem stopAll_state (f : Bool) (s : St) :
    (stopAll f s).1 =
      { s with recognition := none, listening := false, synthQueue := [],
               dom := { s.dom with micBtn := s.dom.micBtn.map (fun _ => idleLabel) } } := by
  rcases s with ⟨rec, lis, ⟨mic, ut, bt, ef, sb, rb, lb⟩, q, n, loc⟩
  cases rec <;> rfl

theorem resetUI_state (f : Bool) (s : St) :
    (resetUI f s).1 =
      { s with recognition := none, listening := false, synthQueue := [],
               dom := { s.dom with
                          micBtn := s.dom.micBtn.map (fun _ => idleLabel),
                          userText := s.dom.userText.map (fun _ => ""),
                          botText := s.dom.botText.map (fun _ => "") } } := by
  rcases s with ⟨rec, lis, ⟨mic, ut, bt, ef, sb, rb, lb⟩, q, n, loc⟩
  cases rec <;> rfl

theorem resetUI_effects (f : Bool) (s : St) :
    (resetUI f s).2 = (stopAll f s).2 ++ [Effect.postReset] := by
  rcases s with ⟨rec, lis, ⟨mic, ut, bt, ef, sb, rb, lb⟩, q, n, loc⟩
  cases rec <;> rfl

theorem speak_fields (t : Option String) (s : St) :
    (speak t s).1.recognition = s.recognition ∧
    (speak t s).1.listening = s.listening ∧
    (speak t s).1.sessionsCreated = s.sessionsCreated ∧
    (speak t s).1.dom = s.dom := by
  rcases t with _ | u
  · exact ⟨rfl, rfl, rfl, rfl⟩
  · by_cases hu : u = "" <;> simp [speak, hu]

theorem replyOf_ne_empty (r : Option String) : replyOf r ≠ "" := by
  rcases r with _ | v
  · decide
  · by_cases h : v = ""
    · simp only [replyOf, h, if_pos]
      decide
    · simp [replyOf, h]

/-- Claim C2: for every call to `startRecognition` made while `listening`
is true, no new session object is created and all state (session
reference, `listening`, button label) is unchanged — and no effect is
emitted. -/
theorem C2_start_noop_while_listening (env : Env) (s : St)
    (h : s.listening = true) :
    startRecognition env s = (s, []) := by
  simp [startRecognition, h]

/-- Witness for C2 at a concrete listening state. -/
theorem C2_start_noop_while_listening_witness :
    stListening.listening = true ∧
    startRecognition envFull stListening = (stListening, []) :=
  ⟨rfl, C2_start_noop_while_listening envFull stListening rfl⟩

/-- Claim C3: `stopAll` always returns normally (it is a total function of
the state; the only fallible step, `recognition.stop()`, is modelled by
`stopFails` and caught in both cases); after any call the session is
released, `listening` is false, and the mic label is the idle indicator
(when the button exists); with no session present only the synthesis
cancellation is emitted (no stop request, nothing thrown); and a second
consecutive call leaves the state identical. -/
theorem C3_stopAll_idempotent (s : St) (f g : Bool) :
    (stopAll f s).1.recognition = none ∧
    (stopAll f s).1.listening = false ∧
    (stopAll f s).1.dom.micBtn = s.dom.micBtn.map (fun _ => idleLabel) ∧
    (stopAll f { s with recognition := none }).2 = [Effect.synthCancel] ∧
    (stopAll g (stopAll f s).1).1 = (stopAll f s).1 := by
  rcases s with ⟨rec, lis, ⟨mic, ut, bt, ef, sb, rb, lb⟩, q, n, loc⟩
  cases rec <;> cases mic <;> exact ⟨rfl, rfl, rfl, rfl, rfl⟩

/-- Claim C10: `stopAll` never modifies the user-text or bot-text fields
(nor the email field, location, or session counter); only the mic label,
`listening`, the session reference, and the speech queue change. -/
theorem C10_stopAll_frame (s : St) (f : Bool) :
    (stopAll f s).1.dom.userText = s.dom.userText ∧
    (stopAll f s).1.dom.botText = s.dom.botText ∧
    (stopAll f s).1.dom.emailField = s.dom.emailField ∧
    (stopAll f s).1.location = s.location ∧
    (stopAll f s).1.sessionsCreated = s.sessionsCreated := by
  rcases s with ⟨rec, lis, ⟨mic, ut, bt, ef, sb, rb, lb⟩, q, n, loc⟩
  cases rec <;> exact ⟨rfl, rfl, rfl, rfl, rfl⟩

/-- Claim C4: `resetUI`, from any prior state, performs `stopAll` (its
state effects — session released, `listening` cleared, idle label — all
hold and its effect trace comes first), then clears both text fields to
the empty string (each guarded only by the element being present), then
issues `POST /reset` as the final effect; no step is conditioned on a
previous step's outcome. -/
theorem C4_resetUI_sequence (s : St) (f : Bool) :
    (resetUI f s).1.dom.userText = s.dom.userText.map (fun _ => "") ∧
    (resetUI f s).1.dom.botText = s.dom.botText.map (fun _ => "") ∧
    (resetUI f s).1.recognition = none ∧
    (resetUI f s).1.listening = false ∧
    (resetUI f s).1.dom.micBtn = s.dom.micBtn.map (fun _ => idleLabel) ∧
    (resetUI f s).2 = (stopAll f s).2 ++ [Effect.postReset] := by
  rcases s with ⟨rec, lis, ⟨mic, ut, bt, ef, sb, rb, lb⟩, q, n, loc⟩
  cases rec <;> exact ⟨rfl, rfl, rfl, rfl, rfl, rfl⟩

/-- Claim C8: `speak` does nothing on falsy input (`none`, i.e.
undefined/null, or the empty string); on a non-empty string it cancels
whatever is queued or playing and enqueues exactly one utterance at rate
1, leaving exactly that single utterance in the queue. -/
theorem C8_speak_contract (s : St) (u : String) :
    speak none s = (s, []) ∧
    speak (some "") s = (s, []) ∧
    speak (some u) s =
      (if u = "" then (s, [])
       else ({ s with synthQueue := [(u, 1)] },
             [Effect.synthCancel, Effect.synthSpeak u 1])) := by
  refine ⟨rfl, rfl, ?_⟩
  by_cases hu : u = "" <;> simp [speak, hu]

/-- Counterexample to claim C5: when the `GET /logout` fetch rejects, the
`await` on line 89 throws, line 90 never runs, and the page is NOT
navigated to `/login` — contradicting "navigated to /login ... including
when the fetch rejects". -/
theorem C5_counterexample :
    (logout FetchOutcome.rejects (St.init domFull)).1.location ≠ some "/login" ∧
    Effect.navigate "/login" ∉ (logout FetchOutcome.rejects (St.init domFull)).2.1 ∧
    (logout FetchOutcome.rejects (St.init domFull)).2.2 ≠ none := by
  refine ⟨by decide, by decide, by decide⟩

/-- Claim C5 as amended: whenever the logout fetch resolves — with any
HTTP status, success or error — the page is navigated to `/login`
(navigation is not conditioned on response success); but when the fetch
rejects, the exception escapes the handler and no navigation occurs. -/
theorem C5_logout_navigation (s : St) (status : Nat) :
    (logout (FetchOutcome.resolves status) s).1.location = some "/login" ∧
    Effect.navigate "/login" ∈ (logout (FetchOutcome.resolves status) s).2.1 ∧
    (logout (FetchOutcome.resolves status) s).2.2 = none ∧
    (logout FetchOutcome.rejects s).1.location = s.location ∧
    Effect.navigate "/login" ∉ (logout FetchOutcome.rejects s).2.1 := by
  refine ⟨rfl, by simp [logout], rfl, rfl, by simp [logout]⟩

/-- Counterexample to claim C1: the response `⦃reply: ""⦄` HAS a `reply`
field, but `out.reply || fallback` (line 44) discards the falsy empty
string, so the bot-text field is set to the fallback, not to the verbatim
reply value `""`. -/
theorem C1_counterexample :
    (onresult "book a room" (Except.ok (some "")) (St.init domFull)).1.dom.botText
      = some fallbackReply ∧
    fallbackReply ≠ "" := by
  refine ⟨rfl, by decide⟩

/-- Claim C1 as amended: for every final result with transcript `t` (on a
page where the `userText` and `botText` elements exist, which the handler
requires), exactly one `POST /ask` is issued, with body message `t` and
email the trimmed email-field value (or `""` if the field is absent); if
the parsed response has a NON-EMPTY `reply` field that value is used
verbatim as the bot text and spoken; otherwise (field absent or empty)
the fixed fallback string is used. -/
theorem C1_onresult_exchange (s : St) (t : String) (r : Option String)
    (hu : s.dom.userText.isSome = true) (hb : s.dom.botText.isSome = true) :
    onresult t (Except.ok r) s =
      ({ s with dom := { s.dom with userText := some t, botText := some (replyOf r) },
                synthQueue := [(replyOf r, 1)] },
       [Effect.postAsk t (emailValue { s.dom with userText := some t }),
        Effect.synthCancel, Effect.synthSpeak (replyOf r) 1],
       none) := by
  rcases s with ⟨rec, lis, ⟨mic, ut, bt, ef, sb, rb, lb⟩, q, n, loc⟩
  rcases ut with _ | u
  · simp at hu
  rcases bt with _ | b
  · simp at hb
  simp [onresult, speak, if_neg (replyOf_ne_empty r)]

/-- Witness for C1's amended theorem: transcript `"book a room"`, reply
`"Room booked"`, on a page with all elements present and no email field. -/
theorem C1_onresult_exchange_witness :
    (St.init domFull).dom.userText.isSome = true ∧
    (St.init domFull).dom.botText.isSome = true ∧
    (onresult "book a room" (Except.ok (some "Room booked")) (St.init domFull)).1.dom.botText
        = some "Room booked" ∧
    (onresult "book a room" (Except.ok (some "Room booked")) (St.init domFull)).2.1
        = [Effect.postAsk "book a room" "", Effect.synthCancel,
           Effect.synthSpeak "Room booked" 1] := by
  refine ⟨rfl, rfl, ?_, ?_⟩ <;>
    rw [C1_onresult_exchange (St.init domFull) "book a room" (some "Room booked") rfl rfl] <;>
    rfl

/-- Counterexample to claim C7: on a page missing the `userText` element,
the result handler throws (line 34 dereferences the `getElementById`
result with no null check) instead of skipping the update — the operation
is fatal to that handler invocation, and the `POST /ask` never happens. -/
theorem C7_counterexample :
    (onresult "hello" (Except.ok (some "hi")) (St.init domNoUserText)).2.2 ≠ none ∧
    (onresult "hello" (Except.ok (some "hi")) (St.init domNoUserText)).2.1 = [] := by
  refine ⟨by decide, by decide⟩

/-- Claim C7 as amended: missing DOM elements are non-fatal for the
guarded operations — the mic-label updates of the lifecycle handlers and
of `stopAll` and the text-field clears of `resetUI` simply skip an absent
element — but the result handler's unguarded writes throw: it completes
without an escaping exception exactly when both the `userText` and
`botText` elements are present. -/
theorem C7_dom_absence (s : St) (t : String) (r : Option String) (f : Bool) :
    ((onresult t (Except.ok r) s).2.2 = none ↔
      s.dom.userText.isSome = true ∧ s.dom.botText.isSome = true) ∧
    (onstart s).1.dom.micBtn = s.dom.micBtn.map (fun _ => listeningLabel) ∧
    (onend s).1.dom.micBtn = s.dom.micBtn.map (fun _ => idleLabel) ∧
    (onerror s).1.dom.micBtn = s.dom.micBtn.map (fun _ => idleLabel) ∧
    (stopAll f s).1.dom.micBtn = s.dom.micBtn.map (fun _ => idleLabel) ∧
    (resetUI f s).1.dom.userText = s.dom.userText.map (fun _ => "") ∧
    (resetUI f s).1.dom.botText = s.dom.botText.map (fun _ => "") ∧
    onDOMContentLoaded s.dom =
      { micWired := s.dom.micBtn.isSome, stopWired := s.dom.stopBtn,
        resetWired := s.dom.resetBtn, logoutWired := s.dom.logoutBtn } := by
  rcases s with ⟨rec, lis, ⟨mic, ut, bt, ef, sb, rb, lb⟩, q, n, loc⟩
  refine ⟨?_, rfl, rfl, rfl, ?_, ?_, ?_, rfl⟩
  · rcases ut with _ | u
    · simp [onresult]
    · rcases bt with _ | b
      · rcases r with _ | v <;> simp [onresult]
      · simp only [onresult, speak, if_neg (replyOf_ne_empty r)]
        simp
  all_goals cases rec <;> rfl

/-- Counterexample to claim C9: run a session to completion — after
`startRecognition`, `onstart`, then `onend`, the controller is idle
(`listening = false`) yet the `recognition` variable still holds the
finished session object; only `stopAll` (or a new start) replaces it. -/
theorem C9_counterexample :
    ((onend (onstart (startRecognition envFull (St.init domFull)).1).1).1).listening
        = false ∧
    ((onend (onstart (startRecognition envFull (St.init domFull)).1).1).1).recognition
        ≠ none := by
  refine ⟨by decide, by decide⟩

/-- Claim C9 as amended: the session reference is null at page load and
after every `stopAll` call; the end and error handlers clear the
`listening` flag but leave the stale session reference in place until the
next `stopAll` or `startRecognition` overwrites it. -/
theorem C9_idle_session (s : St) (f : Bool) (d : Dom) :
    (St.init d).recognition = none ∧
    (stopAll f s).1.recognition = none ∧
    (stopAll f s).1.listening = false ∧
    (onend s).1.recognition = s.recognition ∧
    (onend s).1.listening = false ∧
    (onerror s).1.recognition = s.recognition ∧
    (onerror s).1.listening = false := by
  rcases s with ⟨rec, lis, ⟨mic, ut, bt, ef, sb, rb, lb⟩, q, n, loc⟩
  cases rec <;> exact ⟨rfl, rfl, rfl, rfl, rfl, rfl, rfl⟩

/-- In an environment with neither recognition capability, no recognizer
object is ever constructed, so the page stays idle: the session counter is
zero, `listening` is false, and the session reference is null in every
reachable state. -/
theorem reachable_unsupported_idle (s : St)
    (h : Reachable envUnsupported s) :
    s.sessionsCreated = 0 ∧ s.listening = false ∧ s.recognition = none := by
  induction h with
  | init d => exact ⟨rfl, rfl, rfl⟩
  | step_startRecognition _ ih =>
      obtain ⟨h1, h2, h3⟩ := ih
      simp [startRecognition, envUnsupported, h1, h2, h3]
  | step_stopAll f _ ih =>
      obtain ⟨h1, h2, h3⟩ := ih
      rw [stopAll_state]
      exact ⟨h1, rfl, rfl⟩
  | step_resetUI f _ ih =>
      obtain ⟨h1, h2, h3⟩ := ih
      rw [resetUI_state]
      exact ⟨h1, rfl, rfl⟩
  | step_speak t _ ih =>
      obtain ⟨h1, h2, h3⟩ := ih
      obtain ⟨g1, g2, g3, -⟩ := speak_fields t _
      exact ⟨g3.trans h1, g2.trans h2, g1.trans h3⟩
  | step_logout o _ ih =>
      obtain ⟨h1, h2, h3⟩ := ih
      cases o <;> exact ⟨h1, h2, h3⟩
  | step_onstart _ hpos ih =>
      rw [ih.1] at hpos
      exact absurd hpos (by decide)
  | step_onresult t r _ hpos ih =>
      rw [ih.1] at hpos
      exact absurd hpos (by decide)
  | step_onerror _ hpos ih =>
      rw [ih.1] at hpos
      exact absurd hpos (by decide)
  | step_onend _ hpos ih =>
      rw [ih.1] at hpos
      exact absurd hpos (by decide)

/-- Claim C6: in an environment exposing neither the vendor-prefixed nor
the standard speech-recognition capability, every call to
`startRecognition` from a reachable page state emits exactly one blocking
alert reporting the unsupported condition, creates no session, and
changes no state at all. -/
theorem C6_start_unsupported (s : St)
    (h : Reachable envUnsupported s) :
    startRecognition envUnsupported s = (s, [Effect.alert unsupportedMsg]) := by
  obtain ⟨-, h2, -⟩ := reachable_unsupported_idle s h
  simp [startRecognition, envUnsupported, h2]

/-- Witness for C6 at the freshly loaded page. -/
theorem C6_start_unsupported_witness :
    Reachable envUnsupported (St.init domFull) ∧
    startRecognition envUnsupported (St.init domFull)
      = (St.init domFull, [Effect.alert unsupportedMsg]) :=
  ⟨Reachable.init domFull,
   C6_start_unsupported (St.init domFull) (Reachable.init domFull)⟩
